import Mathlib

/-!
Verification of the quote-selection pipeline in `status_updater.py`.

The Python module is shallowly embedded:
* Python strings are Lean `String`s (sequences of code points); `str.lower`
  is modelled ASCII-wise by `pyLower` (all texts handled here are ASCII).
* `random.choice(lst)` takes an injected index `i` and is modelled by
  `pyChoice lst i = lst.get? (i % lst.length)` (`none` models the
  `IndexError` Python raises on an empty list).
* Network fetches are an injected oracle `Nat → FetchOutcome`: outcome of
  the `requests.get`/`raise_for_status`/`json`/`process` sequence of each
  successive attempt; `fetchErr` covers every exception in that sequence
  (network error, timeout, bad status, malformed body, extraction error).
* The Slack publish call is an injected function returning `Except`.
-/

namespace StatusUpdater

/-- Chars of `small` occur contiguously at the start of `hay`. -/
def strStartsWith : List Char → List Char → Bool
  | [], _ => true
  | _ :: _, [] => false
  | a :: as, b :: bs => a == b && strStartsWith as bs

/-- Chars of `small` occur contiguously somewhere in `hay`
(Python `small in hay`). -/
def strContains (small : List Char) : List Char → Bool
  | [] => strStartsWith small []
  | b :: bs => strStartsWith small (b :: bs) || strContains small bs

/-- Python `small in hay` on strings. -/
def containsTok (small hay : String) : Bool :=
  strContains small.data hay.data

/-- Python `str.lower`, restricted to the ASCII range actually used. -/
def pyLower (s : String) : String :=
  ⟨s.data.map Char.toLower⟩

/-- Python `random.choice(l)` with injected randomness `i`; `none` models
the `IndexError` raised on an empty list. -/
def pyChoice (l : List α) (i : Nat) : Option α :=
  l.get? (i % l.length)

/-- The f-string `f"{quote} - {author}"` from `get_random_quote`. -/
def formatQuote (quote author : String) : String :=
  quote ++ " - " ++ author

/-- `QuoteFetcher.positive_themes` (constructor, lines 30-35). -/
def positive_themes : List String :=
  ["innovation", "leadership", "technology", "success", "growth",
   "courage", "wisdom", "power", "victory", "excellence",
   "creativity", "determination", "strength", "progress", "vision",
   "achievement", "inspiration", "discovery", "breakthrough", "triumph"]

/-- `inappropriate_topics` from `QuoteFetcher._is_appropriate`. -/
def inappropriate_topics : List String :=
  ["death", "dying", "mortality", "kill", "pain", "suffer",
   "black", "white", "race", "gender", "political", "religion",
   "racist", "sexist", "offensive", "controversial", "hate",
   "drug", "alcohol", "nsfw", "dating", "gambling", "war",
   "violence", "crime", "fear", "anxiety", "depression",
   "fail", "negative", "darkness", "troubled"]

/-- `QuoteFetcher._is_appropriate` (lines 37-66): reject when
`len(text + " - ") > 80`, reject on any blocklisted substring of the
lowercased text, then require at least one positive theme. -/
def _is_appropriate (text : String) : Bool :=
  if 80 < (text ++ " - ").length then false
  else
    let text_lower := pyLower text
    if inappropriate_topics.any fun topic => containsTok topic text_lower then false
    else positive_themes.any fun theme => containsTok theme text_lower

/-- The ordered category→keywords table of `QuoteFetcher._categorize_quote`
(lines 73-81); Python dicts iterate in insertion order. -/
def categories : List (String × List String) :=
  [("tech", ["code", "program", "developer", "engineer", "system", "data"]),
   ("innovation", ["innovate", "create", "invent", "build", "design", "future"]),
   ("leadership", ["lead", "guide", "inspire", "achieve", "vision", "success"]),
   ("wisdom", ["learn", "know", "understand", "truth", "mind", "think"]),
   ("power", ["strength", "force", "power", "strong", "mighty", "valor"]),
   ("victory", ["win", "conquer", "achieve", "triumph", "succeed", "accomplish"]),
   ("journey", ["path", "way", "road", "journey", "quest", "adventure"])]

/-- The `for category, keywords in categories.items()` loop body. -/
def categorizeGo (quote_lower : String) : List (String × List String) → String
  | [] => "general"
  | (category, keywords) :: rest =>
    if keywords.any fun keyword => containsTok keyword quote_lower then category
    else categorizeGo quote_lower rest

/-- `QuoteFetcher._categorize_quote` (lines 68-87). -/
def _categorize_quote (quote : String) : String :=
  categorizeGo (pyLower quote) categories

/-- Outcome of one `requests.get` + `raise_for_status` + `json` +
`api.process` sequence: either some exception (`fetchErr`) or a
`(quote, author)` pair. -/
inductive FetchOutcome where
  | fetchErr
  | ok (quote author : String)
deriving DecidableEq

/-- The `for _ in range(max_attempts)` loop of `get_random_quote`
(lines 96-112): `k` attempts remain, `i` indexes the fetch oracle.
Returns the successful `(formatted, category)` pair if any, paired with
the number of fetch calls made. A `fetchErr` breaks the loop (`except:
break`); a filter rejection continues it. -/
def attemptLoop (outcomes : Nat → FetchOutcome) : Nat → Nat → Option (String × String) × Nat
  | 0, _ => (none, 0)
  | k + 1, i =>
    match outcomes i with
    | .fetchErr => (none, 1)
    | .ok quote author =>
      if _is_appropriate quote then
        (some (formatQuote quote author, _categorize_quote quote), 1)
      else
        let r := attemptLoop outcomes k (i + 1)
        (r.1, r.2 + 1)

/-- `max_attempts = 3` (line 94). -/
def max_attempts : Nat := 3

/-- `fallback_quotes` (lines 115-156). -/
def fallback_quotes : List (String × String) :=
  [("Innovation distinguishes between a leader and a follower. - Steve Jobs", "innovation"),
   ("Move fast and learn things. - Meta Engineering", "tech"),
   ("Done is better than perfect. - Sheryl Sandberg", "leadership"),
   ("Make it work, make it right, make it fast. - Kent Beck", "tech"),
   ("First solve the problem, then write the code. - John Johnson", "tech"),
   ("Stay hungry, stay foolish. - Steve Jobs", "innovation"),
   ("Talk is cheap. Show me the code. - Linus Torvalds", "tech"),
   ("Chaos isn't a pit. Chaos is a ladder. - Littlefinger", "wisdom"),
   ("The man who passes the sentence should swing the sword. - Ned Stark", "leadership"),
   ("I am not a politician, I am a queen. - Daenerys Targaryen", "power"),
   ("The night is dark and full of terrors, but the fire burns them all away. - Melisandre", "victory"),
   ("Do. Or do not. There is no try. - Yoda", "wisdom"),
   ("Never tell me the odds. - Han Solo", "courage"),
   ("The Force will be with you. Always. - Obi-Wan Kenobi", "power"),
   ("In my experience, there's no such thing as luck. - Obi-Wan Kenobi", "wisdom"),
   ("All we have to decide is what to do with the time given us. - Gandalf", "wisdom"),
   ("Even the smallest person can change the course of the future. - Galadriel", "innovation"),
   ("There's some good in this world, and it's worth fighting for. - Sam", "victory"),
   ("I am Iron Man. - Tony Stark", "power"),
   ("With great power comes great responsibility. - Uncle Ben", "leadership"),
   ("I can do this all day. - Steve Rogers", "determination"),
   ("I am not a robot. I just speak in code. - Silicon Valley", "tech"),
   ("Sometimes it's better to be a warrior in a garden than a gardener in a war. - Mr. Robot", "wisdom"),
   ("It's not a bug – it's an undocumented feature. - Programming Wisdom", "tech"),
   ("The best way to predict the future is to invent it. - Alan Kay", "innovation"),
   ("Code is poetry. - WordPress", "tech"),
   ("Think different. - Apple", "innovation")]

/-- `QuoteFetcher.get_random_quote` (lines 89-157): run the attempt loop,
fall back to `random.choice(fallback_quotes)` when it yields nothing.
`fbIdx` injects the fallback randomness; the second component counts
fetch calls (for the temporal claims). The provider choice
(`random.choice(self.apis)`) is absorbed into the fetch oracle. -/
def get_random_quote (outcomes : Nat → FetchOutcome) (fbIdx : Nat) :
    Option (String × String) × Nat :=
  let r := attemptLoop outcomes max_attempts 0
  match r.1 with
  | some res => (some res, r.2)
  | none => (pyChoice fallback_quotes fbIdx, r.2)

/-- `EmojiMatcher.emoji_map` (lines 166-175). -/
def emoji_map : List (String × List String) :=
  [("tech", ["💻", "⚡", "🤖", "🚀", "💡"]),
   ("innovation", ["✨", "💫", "🌟", "⭐", "🔮"]),
   ("leadership", ["👑", "🎯", "🦁", "⚔️", "🛡️"]),
   ("wisdom", ["🧠", "📚", "🎓", "🌿", "🔮"]),
   ("power", ["⚡", "💪", "🔥", "⚔️", "✨"]),
   ("victory", ["🏆", "👑", "⭐", "🌟", "🔥"]),
   ("journey", ["🧭", "🗺️", "⭐", "🌠", "🚀"]),
   ("general", ["💫", "✨", "⭐", "🌟", "💝"])]

/-- `EmojiMatcher.get_emoji` (lines 177-179):
`random.choice(emoji_map.get(category, emoji_map['general']))`, with
injected randomness `i`; `none` models the impossible `KeyError` /
`IndexError` paths. -/
def get_emoji (i : Nat) (category : String) : Option String := do
  let general ← emoji_map.lookup "general"
  let pool := (emoji_map.lookup category).getD general
  pyChoice pool i

/-- The `profile` dict handed to `users_profile_set` (lines 211-217). -/
structure StatusPayload where
  status_text : String
  status_emoji : String
  status_expiration : Int
deriving DecidableEq

/-- `SlackStatusUpdater.update_status` (lines 193-222). The whole body
sits in one `try`; any exception is logged and re-raised. `publish`
injects `client.users_profile_set`; `exp` injects the computed
next-midnight timestamp. Returns the printed log lines and the outward
outcome (`Except.error` models an exception propagating to the caller).
The `none` branches model the `IndexError`/`KeyError` that an empty
fallback pool or missing `general` entry would raise (and which the
`except` block would also re-raise); they are proved unreachable. -/
def update_status (outcomes : Nat → FetchOutcome) (fbIdx emojiIdx : Nat)
    (exp : Int) (publish : StatusPayload → Except String Unit) :
    List String × Except String Unit :=
  match (get_random_quote outcomes fbIdx).1 with
  | none => (["Error updating status: IndexError"], .error "IndexError")
  | some (quote, category) =>
    match get_emoji emojiIdx category with
    | none => (["Error updating status: KeyError"], .error "KeyError")
    | some emoji =>
      match publish ⟨quote, emoji, exp⟩ with
      | .ok _ => (["Status updated successfully: " ++ quote ++ " " ++ emoji], .ok ())
      | .error e => (["Error updating status: " ++ e], .error e)

/-- Spec-side categorizer (refinement target), following the spec's words:
walk the categories in fixed declaration order and return the first one
for which any keyword appears as a case-insensitive substring of the
text; return `"general"` when none matches. -/
def categorizeSpec (quote : String) : String :=
  match categories.find? fun p => p.2.any fun kw => containsTok kw (pyLower quote) with
  | some p => p.1
  | none => "general"

/-- The fixed enumerated category set named by the spec. -/
def base_categories : List String :=
  ["tech", "innovation", "leadership", "wisdom", "power", "victory",
   "journey", "general"]

/-- A concrete fetch oracle: two filter-rejected quotes, then a passing
one (used to exercise the retry loop at a concrete input). -/
def rejectRejectPass : Nat → FetchOutcome
  | 0 => .ok "hate" "x"
  | 1 => .ok "hate" "y"
  | _ => .ok "success" "z"

/-! ## Helper lemmas -/

/-- `random.choice` on a non-empty list yields an element of it. -/
theorem pyChoice_some {α : Type} (l : List α) (h : l ≠ []) (i : Nat) :
    ∃ a, pyChoice l i = some a ∧ a ∈ l := by
  have hpos : 0 < l.length := List.length_pos.mpr h
  have hlt : i % l.length < l.length := Nat.mod_lt _ hpos
  exact ⟨l.get ⟨i % l.length, hlt⟩, List.get?_eq_get hlt, List.get_mem l _ hlt⟩

/-- What `random.choice` yields comes from the list. -/
theorem pyChoice_mem {α : Type} {l : List α} {i : Nat} {a : α}
    (h : pyChoice l i = some a) : a ∈ l :=
  List.get?_mem h

/-- Any pair the attempt loop yields is a formatted, categorized quote
that passed the filter. -/
theorem attemptLoop_some (outcomes : Nat → FetchOutcome) :
    ∀ k i p n, attemptLoop outcomes k i = (some p, n) →
      ∃ q a, _is_appropriate q = true ∧ p = (formatQuote q a, _categorize_quote q) := by
  intro k
  induction k with
  | zero =>
    intro i p n h
    simp [attemptLoop] at h
  | succ k ih =>
    intro i p n h
    rw [attemptLoop] at h
    cases ho : outcomes i with
    | fetchErr => rw [ho] at h; simp at h
    | ok q a =>
      rw [ho] at h
      dsimp only at h
      by_cases hf : _is_appropriate q
      · rw [if_pos hf] at h
        simp only [Prod.mk.injEq, Option.some.injEq] at h
        exact ⟨q, a, hf, h.1.symm⟩
      · rw [if_neg hf] at h
        simp only [Prod.mk.injEq] at h
        exact ih (i + 1) p _ (Prod.ext h.1 rfl)

/-- If attempts `i, …, i+j-1` fetch quotes the filter rejects and attempt
`i+j` hits a fetch exception, the loop breaks: it yields nothing after
exactly `j + 1` fetch calls. -/
theorem attemptLoop_err (outcomes : Nat → FetchOutcome) :
    ∀ k i j, j < k →
      (∀ m, m < j → ∃ q a, outcomes (i + m) = .ok q a ∧ _is_appropriate q = false) →
      outcomes (i + j) = .fetchErr →
      attemptLoop outcomes k i = (none, j + 1) := by
  intro k
  induction k with
  | zero =>
    intro i j hj _ _
    exact absurd hj (Nat.not_lt_zero j)
  | succ k ih =>
    intro i j hj hrej herr
    cases j with
    | zero =>
      rw [attemptLoop]
      rw [Nat.add_zero] at herr
      rw [herr]
    | succ j' =>
      obtain ⟨q, a, hoq, hf⟩ := hrej 0 (Nat.succ_pos j')
      rw [Nat.add_zero] at hoq
      rw [attemptLoop, hoq]
      dsimp only
      rw [if_neg (by simp [hf])]
      have hrec : attemptLoop outcomes k (i + 1) = (none, j' + 1) := by
        refine ih (i + 1) j' (Nat.lt_of_succ_lt_succ hj) ?_ ?_
        · intro m hm
          obtain ⟨q', a', ho', hf'⟩ := hrej (m + 1) (Nat.succ_lt_succ hm)
          exact ⟨q', a', by rw [show i + 1 + m = i + (m + 1) by omega]; exact ho', hf'⟩
        · rw [show i + 1 + j' = i + (j' + 1) by omega]
          exact herr
      rw [hrec]

/-- Zeta-reduced unfolding of `get_random_quote`. -/
theorem get_random_quote_eq (outcomes : Nat → FetchOutcome) (fbIdx : Nat) :
    get_random_quote outcomes fbIdx =
      (match (attemptLoop outcomes max_attempts 0).1 with
       | some res => (some res, (attemptLoop outcomes max_attempts 0).2)
       | none => (pyChoice fallback_quotes fbIdx,
                  (attemptLoop outcomes max_attempts 0).2)) := rfl

/-- The pipeline always yields a pair: the loop either returns a filtered
quote or `random.choice` draws from the 27-entry fallback pool. -/
theorem get_random_quote_some (outcomes : Nat → FetchOutcome) (fbIdx : Nat) :
    ∃ p n, get_random_quote outcomes fbIdx = (some p, n) := by
  rw [get_random_quote_eq]
  cases hr : (attemptLoop outcomes max_attempts 0).1 with
  | some res => exact ⟨res, _, rfl⟩
  | none =>
    obtain ⟨p, hp, -⟩ := pyChoice_some fallback_quotes (by decide) fbIdx
    exact ⟨p, _, by rw [hp]⟩

/-- One rejected attempt: the loop recurses with one more call counted. -/
theorem attemptLoop_step_reject (outcomes : Nat → FetchOutcome) (k i : Nat)
    (q a : String) (ho : outcomes i = .ok q a) (hf : _is_appropriate q = false) :
    attemptLoop outcomes (k + 1) i =
      ((attemptLoop outcomes k (i + 1)).1, (attemptLoop outcomes k (i + 1)).2 + 1) := by
  rw [attemptLoop, ho]
  dsimp only
  rw [if_neg (by simp [hf])]

/-- One accepted attempt: the loop stops with the formatted candidate. -/
theorem attemptLoop_step_accept (outcomes : Nat → FetchOutcome) (k i : Nat)
    (q a : String) (ho : outcomes i = .ok q a) (hf : _is_appropriate q = true) :
    attemptLoop outcomes (k + 1) i =
      (some (formatQuote q a, _categorize_quote q), 1) := by
  rw [attemptLoop, ho]
  dsimp only
  rw [if_pos hf]

/-- A text passing the filter satisfies the length check, so the final
formatted string is bounded by 80 plus the attribution's length. -/
theorem filter_length_bound (q a : String)
    (h : _is_appropriate q = true) : (formatQuote q a).length ≤ 80 + a.length := by
  have hlen : ¬ 80 < (q ++ " - ").length := by
    intro hgt
    rw [_is_appropriate, if_pos hgt] at h
    exact Bool.false_ne_true h
  have h3 : (" - " : String).length = 3 := rfl
  have hq : q.length + 3 ≤ 80 := by
    rw [String.length_append, h3] at hlen
    omega
  have : (formatQuote q a).length = q.length + 3 + a.length := by
    unfold formatQuote
    rw [String.length_append, String.length_append, h3]
  omega

/-- The category loop returns a declared category name or `"general"`. -/
theorem categorizeGo_mem (ql : String) :
    ∀ l : List (String × List String),
      categorizeGo ql l ∈ l.map Prod.fst ++ ["general"] := by
  intro l
  induction l with
  | nil => simp [categorizeGo]
  | cons p rest ih =>
    rw [categorizeGo]
    by_cases h : (p.2.any fun keyword => containsTok keyword ql) = true
    · rw [if_pos h]
      simp
    · rw [if_neg h]
      simpa using Or.inr (by simpa using ih)

/-- The category loop is first-match search over the ordered table. -/
theorem categorizeGo_eq_find (ql : String) :
    ∀ l : List (String × List String),
      categorizeGo ql l =
        match l.find? fun p => p.2.any fun kw => containsTok kw ql with
        | some p => p.1
        | none => "general" := by
  intro l
  induction l with
  | nil => simp [categorizeGo]
  | cons hd rest ih =>
    obtain ⟨c, kws⟩ := hd
    rw [categorizeGo]
    by_cases h : (kws.any fun kw => containsTok kw ql) = true
    · rw [if_pos h,
        List.find?_cons_of_pos (p := fun (x : String × List String) => x.2.any fun kw => containsTok kw ql) _ h]
    · rw [if_neg h,
        List.find?_cons_of_neg (p := fun (x : String × List String) => x.2.any fun kw => containsTok kw ql) _ h,
        ih]

/-- Whatever `_categorize_quote` returns lies in the eight-element set. -/
theorem categorize_mem_base (q : String) :
    _categorize_quote q ∈
      ["tech", "innovation", "leadership", "wisdom", "power", "victory",
       "journey", "general"] := by
  have h := categorizeGo_mem (pyLower q) categories
  simpa [categories, _categorize_quote] using h

/-- A value found by `List.lookup` is one of the stored values. -/
theorem lookup_snd_mem {α β : Type} [BEq α] {l : List (α × β)} {k : α} {v : β}
    (h : l.lookup k = some v) : v ∈ l.map Prod.snd := by
  induction l with
  | nil => simp [List.lookup] at h
  | cons p rest ih =>
    obtain ⟨k', v'⟩ := p
    rw [List.lookup] at h
    cases hk : k == k' with
    | true => rw [hk] at h; simp at h; simp [h]
    | false => rw [hk] at h; simp only [List.map_cons, List.mem_cons]; exact Or.inr (ih h)

/-- `get_emoji` always yields a glyph, drawn from the looked-up pool
(or the `general` pool when the category is unconfigured). -/
theorem get_emoji_some (i : Nat) (category : String) :
    ∃ e, get_emoji i category = some e ∧
      e ∈ (emoji_map.lookup category).getD
        ["💫", "✨", "⭐", "🌟", "💝"] := by
  unfold get_emoji
  rw [show emoji_map.lookup "general" =
        some ["💫", "✨", "⭐", "🌟", "💝"] from rfl]
  cases hlk : emoji_map.lookup category with
  | none =>
    simp only [hlk, Option.getD_none, Option.getD_some, Option.bind_some]
    exact pyChoice_some _ (by decide) i
  | some pool =>
    have hall : ∀ v ∈ emoji_map.map Prod.snd, v ≠ [] := by decide
    have hne : pool ≠ [] := hall pool (lookup_snd_mem hlk)
    simp only [hlk, Option.getD_some, Option.bind_some]
    exact pyChoice_some pool hne i

/-! ## Claims -/

/-- Claim C4: the retry loop is asymmetric. If the fetch raises on some
attempt `j` (the earlier attempts having fetched quotes the filter
rejected), the pipeline makes no further fetch attempts and returns a
fallback pair after exactly `j + 1` fetch calls — in particular one call
when attempt 1 fails; whereas if fetch succeeds but the filter rejects
on attempts 1 and 2 and the attempt-3 fetch succeeds and passes, the
pipeline returns the attempt-3 candidate after exactly 3 fetch calls,
with `max_attempts` fixed at 3. -/
theorem retry_asymmetry :
    (∀ (outcomes : Nat → FetchOutcome) (fbIdx j : Nat), j < max_attempts →
      (∀ m, m < j → ∃ q a, outcomes m = .ok q a ∧ _is_appropriate q = false) →
      outcomes j = .fetchErr →
      get_random_quote outcomes fbIdx = (pyChoice fallback_quotes fbIdx, j + 1)) ∧
    (∀ (outcomes : Nat → FetchOutcome) (fbIdx : Nat) (q1 a1 q2 a2 q3 a3 : String),
      outcomes 0 = .ok q1 a1 → outcomes 1 = .ok q2 a2 → outcomes 2 = .ok q3 a3 →
      _is_appropriate q1 = false → _is_appropriate q2 = false →
      _is_appropriate q3 = true →
      get_random_quote outcomes fbIdx =
        (some (formatQuote q3 a3, _categorize_quote q3), 3)) := by
  constructor
  · intro outcomes fbIdx j hj hrej herr
    have hloop : attemptLoop outcomes max_attempts 0 = (none, j + 1) := by
      refine attemptLoop_err outcomes max_attempts 0 j hj ?_ ?_
      · intro m hm
        simp only [Nat.zero_add]
        exact hrej m hm
      · simp only [Nat.zero_add]
        exact herr
    rw [get_random_quote_eq, hloop]
  · intro outcomes fbIdx q1 a1 q2 a2 q3 a3 h0 h1 h2 hf1 hf2 hf3
    have e3 : attemptLoop outcomes 1 2 =
        (some (formatQuote q3 a3, _categorize_quote q3), 1) := by
      show attemptLoop outcomes (0 + 1) 2 = _
      exact attemptLoop_step_accept outcomes 0 2 q3 a3 h2 hf3
    have e2 : attemptLoop outcomes 2 1 =
        (some (formatQuote q3 a3, _categorize_quote q3), 2) := by
      show attemptLoop outcomes (1 + 1) 1 = _
      rw [attemptLoop_step_reject outcomes 1 1 q2 a2 h1 hf2]
      rw [show (1 + 1 : Nat) = 2 from rfl, e3]
    have e1 : attemptLoop outcomes 3 0 =
        (some (formatQuote q3 a3, _categorize_quote q3), 3) := by
      show attemptLoop outcomes (2 + 1) 0 = _
      rw [attemptLoop_step_reject outcomes 2 0 q1 a1 h0 hf1]
      rw [show (0 + 1 : Nat) = 1 from rfl, e2]
    rw [get_random_quote_eq, show max_attempts = 3 from rfl, e1]

/-- Witness for `retry_asymmetry`: a first-attempt fetch error gives the
fallback after one call; reject-reject-pass returns the third candidate
after three calls. -/
theorem retry_asymmetry_witness :
    get_random_quote (fun _ => FetchOutcome.fetchErr) 7 =
      (pyChoice fallback_quotes 7, 1) ∧
    get_random_quote rejectRejectPass 0 =
      (some (formatQuote "success" "z", _categorize_quote "success"), 3) :=
  ⟨retry_asymmetry.1 (fun _ => FetchOutcome.fetchErr) 7 0 (by decide)
      (fun m hm => absurd hm (Nat.not_lt_zero m)) rfl,
   retry_asymmetry.2 rejectRejectPass 0 "hate" "x" "hate" "y" "success" "z"
      rfl rfl rfl (by decide) (by decide) (by decide)⟩

/-- Claim C5: the pipeline is total and never fails outward: for every
fetch-oracle behaviour (success, network/timeout error, malformed
response, extraction error — all modelled by `FetchOutcome`) and every
filter verdict, `get_random_quote` returns a pair; the fallback path
always succeeds because the pool is non-empty. -/
theorem pipeline_total :
    fallback_quotes ≠ [] ∧
    ∀ (outcomes : Nat → FetchOutcome) (fbIdx : Nat),
      ∃ p n, get_random_quote outcomes fbIdx = (some p, n) :=
  ⟨by decide, get_random_quote_some⟩

/-- Witness for `pipeline_total` at a concrete all-failing oracle. -/
theorem pipeline_total_witness :
    ∃ p n, get_random_quote (fun _ => FetchOutcome.fetchErr) 5 = (some p, n) :=
  pipeline_total.2 (fun _ => FetchOutcome.fetchErr) 5

/-- Claim C6: any text whose formatted length `len(text + " - ")` exceeds
the 80-character ceiling (which reserves roughly 20 characters for the
attribution suffix) is rejected by the filter. -/
theorem overlong_rejected (t : String) (h : 80 < (t ++ " - ").length) :
    _is_appropriate t = false := by
  unfold _is_appropriate
  rw [if_pos h]

/-- Witness for `overlong_rejected` at a 78-character text. -/
theorem overlong_rejected_witness :
    (80 < ((String.mk (List.replicate 78 'a')) ++ " - ").length) ∧
    _is_appropriate (String.mk (List.replicate 78 'a')) = false :=
  ⟨by decide, overlong_rejected (String.mk (List.replicate 78 'a')) (by decide)⟩

/-- Claim C7: any text whose lowercasing contains a blocklisted token as
a substring is rejected, regardless of the text's length and of whether
a positive-theme token is present (a too-long text is rejected by the
earlier length check, so the verdict is `false` either way). -/
theorem blocklisted_rejected (t topic : String)
    (hmem : topic ∈ inappropriate_topics)
    (hsub : containsTok topic (pyLower t) = true) :
    _is_appropriate t = false := by
  have hany :
      (inappropriate_topics.any fun topic => containsTok topic (pyLower t)) = true :=
    List.any_eq_true.mpr ⟨topic, hmem, hsub⟩
  by_cases hlen : 80 < (t ++ " - ").length
  · unfold _is_appropriate
    rw [if_pos hlen]
  · unfold _is_appropriate
    rw [if_neg hlen]
    dsimp only
    rw [if_pos hany]

/-- Witness for `blocklisted_rejected`: "I hate bugs" contains the
blocklisted token "hate" and is rejected. -/
theorem blocklisted_rejected_witness :
    "hate" ∈ inappropriate_topics ∧
    containsTok "hate" (pyLower "I hate bugs") = true ∧
    _is_appropriate "I hate bugs" = false :=
  ⟨by decide, by decide,
   blocklisted_rejected "I hate bugs" "hate" (by decide) (by decide)⟩

/-- Claim C8: the categorizer is deterministic — equal texts yield equal
categories — and agrees with the spec-side first-match search
`categorizeSpec`: it returns the first category in the fixed declaration
order (tech, innovation, leadership, wisdom, power, victory, journey)
for which some keyword occurs case-insensitively in the text, and
`"general"` when none matches. -/
theorem categorize_deterministic_first_match :
    (∀ q1 q2 : String, q1 = q2 → _categorize_quote q1 = _categorize_quote q2) ∧
    (∀ q : String, _categorize_quote q = categorizeSpec q) := by
  refine ⟨fun q1 q2 h => congrArg _ h, fun q => ?_⟩
  unfold _categorize_quote categorizeSpec
  exact categorizeGo_eq_find (pyLower q) categories

/-- Witness for `categorize_deterministic_first_match` at a concrete
text ("learn" matches wisdom, "success" matches the earlier leadership). -/
theorem categorize_deterministic_first_match_witness :
    _categorize_quote "learn from success" = _categorize_quote "learn from success" ∧
    _categorize_quote "learn from success" = categorizeSpec "learn from success" :=
  ⟨categorize_deterministic_first_match.1 "learn from success" "learn from success" rfl,
   categorize_deterministic_first_match.2 "learn from success"⟩

/-- Counterexample to Claim C1 as stated: a fetched quote of 77
characters (which passes the filter) paired with a 30-character
attribution is returned by the pipeline as a 110-character string —
beyond the claimed 100-character maximum — and no ellipsis marker
(`"..."`) occurs in it, since the code never truncates. -/
theorem length_invariant_counterexample :
    (get_random_quote
        (fun _ => FetchOutcome.ok ("success" ++ String.mk (List.replicate 70 'a'))
          (String.mk (List.replicate 30 'b'))) 0).1 =
      some (formatQuote ("success" ++ String.mk (List.replicate 70 'a'))
              (String.mk (List.replicate 30 'b')), "leadership") ∧
    100 < (formatQuote ("success" ++ String.mk (List.replicate 70 'a'))
            (String.mk (List.replicate 30 'b'))).length ∧
    containsTok "..." (formatQuote ("success" ++ String.mk (List.replicate 70 'a'))
            (String.mk (List.replicate 30 'b'))) = false :=
  ⟨by decide, by decide, by decide⟩

/-- Claim C1 (amended): every string the fallback path can return has at
most 100 characters, and every string the success path returns has
length at most `80 + length(attribution)` — the filter bounds only the
text-plus-separator part by 80 — so the 100-character bound holds only
for attributions of at most 20 characters, and no ellipsis is ever
appended because no truncation is performed. -/
theorem length_invariant_amended :
    (∀ p ∈ fallback_quotes, (p : String × String).1.length ≤ 100) ∧
    (∀ (outcomes : Nat → FetchOutcome) (fbIdx : Nat) (p : String × String) (n : Nat),
      get_random_quote outcomes fbIdx = (some p, n) →
      p.1.length ≤ 100 ∨
      ∃ q a, _is_appropriate q = true ∧ p.1 = formatQuote q a ∧
        p.1.length ≤ 80 + a.length) := by
  have hfb : ∀ p ∈ fallback_quotes, (p : String × String).1.length ≤ 100 := by decide
  refine ⟨hfb, ?_⟩
  intro outcomes fbIdx p n h
  rw [get_random_quote_eq] at h
  cases hr : (attemptLoop outcomes max_attempts 0).1 with
  | some res =>
    rw [hr] at h
    simp only [Prod.mk.injEq, Option.some.injEq] at h
    obtain ⟨q, a, hf, hpe⟩ :=
      attemptLoop_some outcomes max_attempts 0 res _ (Prod.ext hr rfl)
    have hp : p = (formatQuote q a, _categorize_quote q) := by rw [← h.1, hpe]
    right
    exact ⟨q, a, hf, by rw [hp], by rw [hp]; exact filter_length_bound q a hf⟩
  | none =>
    rw [hr] at h
    simp only [Prod.mk.injEq] at h
    exact Or.inl (hfb p (pyChoice_mem h.1))

/-- Witness for `length_invariant_amended` at a concrete pool entry. -/
theorem length_invariant_amended_witness :
    (("Think different. - Apple", "innovation") : String × String).1.length ≤ 100 :=
  length_invariant_amended.1 ("Think different. - Apple", "innovation") (by decide)

/-- Counterexample to Claim C2 as stated: with every fetch failing and
fallback randomness landing on index 12, the pipeline returns the
category "courage", which is not in the fixed eight-element set. -/
theorem category_set_counterexample :
    (get_random_quote (fun _ => FetchOutcome.fetchErr) 12).1 =
      some ("Never tell me the odds. - Han Solo", "courage") ∧
    "courage" ∉ base_categories :=
  ⟨by decide, by decide⟩

/-- Claim C2 (amended): the categorizer itself always lands in the fixed
set {tech, innovation, leadership, wisdom, power, victory, journey,
general}, but the fallback pool also carries the stray labels "courage"
and "determination", so a pipeline result's category lies in the base
set extended by those two labels. -/
theorem category_set_amended :
    (∀ q : String, _categorize_quote q ∈ base_categories) ∧
    (∀ (outcomes : Nat → FetchOutcome) (fbIdx : Nat) (p : String × String) (n : Nat),
      get_random_quote outcomes fbIdx = (some p, n) →
      p.2 ∈ base_categories ++ ["courage", "determination"]) := by
  have hbase : ∀ q : String, _categorize_quote q ∈ base_categories := by
    intro q
    simpa [base_categories] using categorize_mem_base q
  refine ⟨hbase, ?_⟩
  intro outcomes fbIdx p n h
  rw [get_random_quote_eq] at h
  cases hr : (attemptLoop outcomes max_attempts 0).1 with
  | some res =>
    rw [hr] at h
    simp only [Prod.mk.injEq, Option.some.injEq] at h
    obtain ⟨q, a, -, hpe⟩ :=
      attemptLoop_some outcomes max_attempts 0 res _ (Prod.ext hr rfl)
    have hp : p = (formatQuote q a, _categorize_quote q) := by rw [← h.1, hpe]
    rw [hp]
    exact List.mem_append_left _ (hbase q)
  | none =>
    rw [hr] at h
    simp only [Prod.mk.injEq] at h
    have hall : ∀ r ∈ fallback_quotes,
        (r : String × String).2 ∈ base_categories ++ ["courage", "determination"] := by
      decide
    exact hall p (pyChoice_mem h.1)

/-- Witness for `category_set_amended` at a concrete fallback run. -/
theorem category_set_amended_witness :
    (("Innovation distinguishes between a leader and a follower. - Steve Jobs",
      "innovation") : String × String).2 ∈
      base_categories ++ ["courage", "determination"] :=
  category_set_amended.2 (fun _ => FetchOutcome.fetchErr) 0
    ("Innovation distinguishes between a leader and a follower. - Steve Jobs",
     "innovation") 1 (by decide)

/-- Counterexample to Claim C3 as stated: the fallback entry "Move fast
and learn things. - Meta Engineering" contains no positive-theme token,
so the content filter rejects it. -/
theorem fallback_prefiltered_counterexample :
    ("Move fast and learn things. - Meta Engineering", "tech") ∈ fallback_quotes ∧
    _is_appropriate "Move fast and learn things. - Meta Engineering" = false :=
  ⟨by decide, by decide⟩

/-- Claim C3 (amended): the fallback pool is not pre-verified against
the content filter: of its 27 entries exactly three satisfy
`_is_appropriate`. -/
theorem fallback_prefiltered_amended :
    fallback_quotes.filter (fun p => _is_appropriate p.1) =
      [("Innovation distinguishes between a leader and a follower. - Steve Jobs",
        "innovation"),
       ("With great power comes great responsibility. - Uncle Ben", "leadership"),
       ("It's not a bug – it's an undocumented feature. - Programming Wisdom",
        "tech")] ∧
    fallback_quotes.length = 27 :=
  ⟨by decide, by decide⟩

/-- Claim C9: for every category label (including labels absent from the
emoji table) and every random index, the emoji picker returns a glyph
drawn from that category's configured set — the "general" set when the
category is unconfigured — and never an empty result. -/
theorem emoji_from_configured_set (category : String) (i : Nat) :
    ∃ e, get_emoji i category = some e ∧
      e ∈ (emoji_map.lookup category).getD ["💫", "✨", "⭐", "🌟", "💝"] :=
  get_emoji_some i category

/-- Witness for `emoji_from_configured_set` at a configured category. -/
theorem emoji_from_configured_set_witness :
    ∃ e, get_emoji 0 "tech" = some e ∧
      e ∈ (emoji_map.lookup "tech").getD ["💫", "✨", "⭐", "🌟", "💝"] :=
  emoji_from_configured_set "tech" 0

/-- Claim C10: the publish outcome is the only failure class that
propagates outward from `update_status`: the quote and emoji steps
always produce values, the result equals the publish call's outcome —
a publish error is logged and re-raised to the caller — and on success
the single log line reports the published text and emoji. -/
theorem publish_only_failure (outcomes : Nat → FetchOutcome)
    (fbIdx emojiIdx : Nat) (exp : Int)
    (publish : StatusPayload → Except String Unit) :
    ∃ quote category emoji,
      (get_random_quote outcomes fbIdx).1 = some (quote, category) ∧
      get_emoji emojiIdx category = some emoji ∧
      update_status outcomes fbIdx emojiIdx exp publish =
        (match publish ⟨quote, emoji, exp⟩ with
         | .ok _ => (["Status updated successfully: " ++ quote ++ " " ++ emoji],
                     Except.ok ())
         | .error e => (["Error updating status: " ++ e], Except.error e)) := by
  obtain ⟨⟨quote, category⟩, n, hq⟩ := get_random_quote_some outcomes fbIdx
  obtain ⟨emoji, he, -⟩ := get_emoji_some emojiIdx category
  have hq1 : (get_random_quote outcomes fbIdx).1 = some (quote, category) := by
    rw [hq]
  refine ⟨quote, category, emoji, hq1, he, ?_⟩
  unfold update_status
  rw [hq1]
  dsimp only
  rw [he]

/-- Witness for `publish_only_failure`: a failing publish call is logged
and its error propagates. -/
theorem publish_only_failure_witness :
    ∃ quote category emoji,
      (get_random_quote (fun _ => FetchOutcome.fetchErr) 0).1 =
        some (quote, category) ∧
      get_emoji 0 category = some emoji ∧
      update_status (fun _ => FetchOutcome.fetchErr) 0 0 0
          (fun _ => Except.error "boom") =
        (["Error updating status: boom"], Except.error "boom") :=
  publish_only_failure (fun _ => FetchOutcome.fetchErr) 0 0 0
    (fun _ => Except.error "boom")

end StatusUpdater
